import Mathlib

/-!
# Verification of the tutoring chat application (`src/app.py`)

Shallow embedding of the application's data model and operations.

The application is a Streamlit app backed by a Firestore document store
(collection `users`, keyed by username) and an OpenAI chat-completion
endpoint.  We embed:

* the document store as a map `String → Option Account` (one document per
  username, as in `db.collection('users').document(username)`);
* the per-session state (`st.session_state.username`,
  `st.session_state.user_data`) as a `Session` record.  In the source,
  `st.session_state.chat_history` aliases `user_data['chat_history']`
  (both are the same Python list object, bound in `load_user_data` /
  `login_page` via `user_data.get('chat_history', [])` and mutated in
  place by `append`), so we model the session transcript as the
  `chat_history` field of the session's `user_data` copy;
* the OpenAI call as an explicit outcome parameter (`GenOutcome`): the
  source wraps the call in `try`, with one handler for `openai.APIError`
  and one for every other `Exception`;
* the external bcrypt library as a black box satisfying its documented
  contract: `checkpw(p, hashpw(p, gensalt())) = true`, with the salt made
  an explicit parameter;
* the Streamlit UI calls (`st.error`, `st.success`, `st.rerun`, widgets)
  as the request/response boundary: a handler's user-visible outcome is
  recorded in an explicit result type, and the values the widgets hand to
  a form-submit handler are the handler's parameters.

Token balances are Python integers (`user_data['tokens']`), so they are
embedded as `Int`, not `Nat`: the non-negativity of the balance is a
theorem about the code, not a typing assumption.
-/

/-- Black-box model of a bcrypt hash: `bcrypt.hashpw(password, gensalt())`
produces an opaque value from which `bcrypt.checkpw` can recover whether a
candidate password matches.  The salt is the nondeterministic input of
`gensalt()`. -/
structure BcryptHash where
  salt : Nat
  payload : String
deriving DecidableEq, Repr

/-- `hash_password` (src/app.py line 69): `bcrypt.hashpw(password, gensalt())`. -/
def hash_password (salt : Nat) (password : String) : BcryptHash :=
  { salt := salt, payload := password }

/-- `check_password` (src/app.py line 73): `bcrypt.checkpw(password, hashed)`. -/
def check_password (password : String) (hashed_password : BcryptHash) : Bool :=
  hashed_password.payload == password

/-- One chat message, as stored in `chat_history`
(`{"role": ..., "content": ...}`, src/app.py lines 411 and 446). -/
structure Turn where
  role : String
  content : String
deriving DecidableEq, Repr

/-- The `learning_preferences` sub-document (src/app.py lines 216-220). -/
structure Prefs where
  style : String
  pace : String
  difficulty : String
deriving DecidableEq, Repr

/-- One user document of the `users` collection, with the fields written at
registration (src/app.py lines 209-223). -/
structure Account where
  first_name : String
  last_name : String
  email : String
  username : String
  password_hash : BcryptHash
  tokens : Int
  learning_preferences : Prefs
  subjects : List String
  chat_history : List Turn
deriving DecidableEq, Repr

/-- The Firestore `users` collection: at most one document per username. -/
def Store : Type := String → Option Account

/-- `doc_ref.set(user_data)` / `doc_ref.set(data, merge=True)` with `data`
carrying every field of the document: a whole-document write at one key. -/
def storeSet (store : Store) (username : String) (acct : Account) : Store :=
  fun u => if u = username then some acct else store u

/-- The per-session state after login: `st.session_state.username` and
`st.session_state.user_data` (the session's cached copy of the document;
`st.session_state.chat_history` aliases its `chat_history` field). -/
structure Session where
  username : String
  user_data : Account
deriving DecidableEq, Repr

/-- `update_user_data` (src/app.py lines 96-104): writes the full `data`
dict with `doc_ref.set(data, merge=True)` — since `data` carries every
field, a whole-document overwrite — and replaces the session copy. -/
def update_user_data (store : Store) (sess : Session) (data : Account) :
    Store × Session :=
  (storeSet store sess.username data, { sess with user_data := data })

/-- `save_chat_history` (src/app.py lines 106-111):
`doc_ref.update({'chat_history': st.session_state.chat_history})` — a
field-scoped update of the stored document's `chat_history` only.  (For a
logged-in session the document exists; Firestore's `update` on a missing
document fails, embedded as leaving the store unchanged.) -/
def save_chat_history (store : Store) (sess : Session) : Store :=
  match store sess.username with
  | some acct =>
      storeSet store sess.username
        { acct with chat_history := sess.user_data.chat_history }
  | none => store

/-- `initial_tokens` (src/app.py line 208). -/
def initial_tokens : Int := 1000

/-- User-visible outcome of a registration submit (src/app.py lines 199-227). -/
inductive RegResult where
  /-- "Passwords do not match." (line 200) -/
  | passwordMismatch
  /-- "All fields are required." (line 202) -/
  | fieldsRequired
  /-- "Username already exists. Please choose a different one." (line 205) -/
  | duplicateUsername
  /-- "Registration successful! You can now log in." (line 225) -/
  | success
deriving DecidableEq, Repr

/-- The document created at registration (src/app.py lines 209-223). -/
def new_user_data (salt : Nat)
    (first_name last_name username email password : String) : Account :=
  { first_name := first_name
    last_name := last_name
    email := email
    username := username
    password_hash := hash_password salt password
    tokens := initial_tokens
    learning_preferences :=
      { style := "interactive", pace := "moderate", difficulty := "beginner" }
    subjects := []
    chat_history := [] }

/-- The registration submit handler, `register_page` (src/app.py lines
189-227): password-confirmation check, then required-fields check, then
duplicate check, then `user_doc_ref.set(user_data)`. -/
def register_page (store : Store) (salt : Nat)
    (first_name last_name username email password confirm_password : String) :
    RegResult × Store :=
  if password ≠ confirm_password then
    (RegResult.passwordMismatch, store)
  else if username = "" ∨ password = "" ∨ first_name = "" ∨ last_name = "" ∨
      email = "" then
    (RegResult.fieldsRequired, store)
  else if (store username).isSome then
    (RegResult.duplicateUsername, store)
  else
    (RegResult.success,
      storeSet store username
        (new_user_data salt first_name last_name username email password))

/-- User-visible outcome of a login submit (src/app.py lines 130-154). -/
inductive LoginResult where
  /-- Login succeeds: the session is populated with the stored document
  (lines 145-149). -/
  | success (user_data : Account)
  /-- "Incorrect password." (line 152) -/
  | incorrectPassword
  /-- "Username not found." (line 154) -/
  | usernameNotFound
deriving DecidableEq, Repr

/-- The login submit handler, `login_page` (src/app.py lines 130-154):
reads the document, compares the password hash, and on success returns the
account snapshot that populates the session.  It performs no store write. -/
def login_page (store : Store) (username password : String) : LoginResult :=
  match store username with
  | some user_data =>
      if check_password password user_data.password_hash then
        LoginResult.success user_data
      else
        LoginResult.incorrectPassword
  | none => LoginResult.usernameNotFound

/-- The preference-form submit handler (src/app.py lines 302-311):
`user_data['learning_preferences'] = {...}; update_user_data(user_data)`.
The three values come from `st.selectbox` widgets; the handler itself
performs no validation and has no failure branch (in a logged-in session
`update_user_data` returns `True`). -/
def update_preferences (store : Store) (sess : Session)
    (learning_style learning_pace difficulty_level : String) :
    Store × Session :=
  update_user_data store sess
    { sess.user_data with
        learning_preferences :=
          { style := learning_style
            pace := learning_pace
            difficulty := difficulty_level } }

/-- The selectbox option lists of the preferences form
(src/app.py lines 267, 278, 289). -/
def learning_style_options : List String :=
  ["Interactive", "Visual", "Auditory", "Reading/Writing", "Kinesthetic"]

def learning_pace_options : List String :=
  ["Slow", "Moderate", "Fast"]

def difficulty_level_options : List String :=
  ["Beginner", "Intermediate", "Advanced"]

/-- The subject catalog `available_subjects` (src/app.py lines 314-317). -/
def available_subjects : List String :=
  ["Mathematics", "Physics", "Chemistry", "Biology", "Computer Science",
   "History", "Geography", "Literature", "Economics", "Art"]

/-- User-visible outcome of a subjects-form submit (src/app.py lines 330-338). -/
inductive SubjectsResult where
  /-- "You can select a maximum of 5 subjects." (line 332) -/
  | tooMany
  /-- "Subjects updated successfully!" (line 336) -/
  | updated
deriving DecidableEq, Repr

/-- The subjects-form submit handler (src/app.py lines 330-338): rejects
more than 5 selections, otherwise
`user_data['subjects'] = selected_subjects; update_user_data(user_data)`.
The only validation is the count bound; the values come from an
`st.multiselect` over `available_subjects`. -/
def update_subjects (store : Store) (sess : Session)
    (selected_subjects : List String) :
    SubjectsResult × Store × Session :=
  if selected_subjects.length > 5 then
    (SubjectsResult.tooMany, store, sess)
  else
    let p := update_user_data store sess
      { sess.user_data with subjects := selected_subjects }
    (SubjectsResult.updated, p.1, p.2)

/-- Outcome of the `client.chat.completions.create` call inside the `try`
block (src/app.py lines 433-459): success with the completion text, an
`openai.APIError`, or any other `Exception`. -/
inductive GenOutcome where
  | ok (content : String)
  | apiFailure (e : String)
  | otherFailure (e : String)
deriving DecidableEq, Repr

/-- User-visible outcome of a tutor-page send (src/app.py lines 401-459). -/
inductive TurnResult where
  /-- `send_button and user_input` is falsy: the branch is not entered. -/
  | ignored
  /-- "You have no tokens left! Please contact support for more." (line 403) -/
  | noTokens
  /-- Success path completes (lines 444-448). -/
  | done
  /-- "OpenAI API error: ..." (line 451) -/
  | apiError (e : String)
  /-- "An unexpected error occurred: ..." (line 456) -/
  | unexpectedError (e : String)
deriving DecidableEq, Repr

/-- Result of one tutor-page request: the user-visible outcome, the store
and session afterwards, and whether the Generation Service was invoked. -/
structure TurnOutput where
  result : TurnResult
  store : Store
  sess : Session
  genCalled : Bool

/-- The tutor-page send handler, `tutor_page` (src/app.py lines 401-459),
for a logged-in session with the external services configured:

* `if send_button and user_input:` — an empty input never enters the branch;
* `if current_tokens <= 0:` rejects before any other action
  (`current_tokens` is the session copy's `tokens`, line 364);
* `user_data['tokens'] -= 1; update_user_data(user_data)` — the debit,
  a whole-document write of the session copy;
* `st.session_state.chat_history.append({"role": "user", ...});
  save_chat_history()` — the user turn is persisted before the call;
* the OpenAI call, then on success
  `chat_history.append({"role": "assistant", ...}); save_chat_history()`;
  on `openai.APIError` and on every other `Exception` alike,
  `user_data['tokens'] += 1; update_user_data(user_data)`. -/
def tutor_page_send (store : Store) (sess : Session) (user_input : String)
    (gen : GenOutcome) : TurnOutput :=
  if user_input = "" then
    { result := TurnResult.ignored, store := store, sess := sess,
      genCalled := false }
  else if sess.user_data.tokens ≤ 0 then
    { result := TurnResult.noTokens, store := store, sess := sess,
      genCalled := false }
  else
    let data1 := { sess.user_data with tokens := sess.user_data.tokens - 1 }
    let p1 := update_user_data store sess data1
    let data2 :=
      { data1 with
          chat_history :=
            data1.chat_history ++ [{ role := "user", content := user_input }] }
    let sess2 : Session := { p1.2 with user_data := data2 }
    let store2 := save_chat_history p1.1 sess2
    match gen with
    | GenOutcome.ok tutor_response =>
        let data3 :=
          { data2 with
              chat_history :=
                data2.chat_history ++
                  [{ role := "assistant", content := tutor_response }] }
        let sess3 : Session := { sess2 with user_data := data3 }
        let store3 := save_chat_history store2 sess3
        { result := TurnResult.done, store := store3, sess := sess3,
          genCalled := true }
    | GenOutcome.apiFailure e =>
        let data4 := { data2 with tokens := data2.tokens + 1 }
        let p4 := update_user_data store2 sess2 data4
        { result := TurnResult.apiError e, store := p4.1, sess := p4.2,
          genCalled := true }
    | GenOutcome.otherFailure e =>
        let data4 := { data2 with tokens := data2.tokens + 1 }
        let p4 := update_user_data store2 sess2 data4
        { result := TurnResult.unexpectedError e, store := p4.1, sess := p4.2,
          genCalled := true }

/-- The balance field of an (optional) stored document is non-negative;
`true` for an absent document. -/
def balOk : Option Account → Bool
  | some a => decide (0 ≤ a.tokens)
  | none => true

/-- An empty `users` collection. -/
def emptyStore : Store := fun _ => none

/-- Concrete fixture account (the spec's concrete scenario: user `alice`
with password `pw123`), here with 2 tokens left. -/
def demoAcct : Account :=
  { first_name := "Alice"
    last_name := "Liddell"
    email := "alice@example.com"
    username := "alice"
    password_hash := hash_password 7 "pw123"
    tokens := 2
    learning_preferences :=
      { style := "interactive", pace := "moderate", difficulty := "beginner" }
    subjects := []
    chat_history := [] }

/-- A store holding exactly the fixture account. -/
def demoStore : Store := storeSet emptyStore "alice" demoAcct

/-- A logged-in session for the fixture account, in sync with `demoStore`. -/
def demoSess : Session := { username := "alice", user_data := demoAcct }

/-- The fixture account with its balance exhausted. -/
def drainedAcct : Account := { demoAcct with tokens := 0 }

/-- A logged-in session for the exhausted fixture account. -/
def drainedSess : Session := { username := "alice", user_data := drainedAcct }

/-- The same store with the stored balance raised to 50 behind the back of
the session cache (the session still caches 2 tokens). -/
def richStore : Store := storeSet demoStore "alice" { demoAcct with tokens := 50 }

/-- Two requests for the same account whose sessions both hold the snapshot
taken before either ran (two browser tabs logged in as `alice`): the first
request's turn, run against `demoStore`. -/
def staleRunA : TurnOutput :=
  tutor_page_send demoStore demoSess "q1" (GenOutcome.ok "a1")

/-- The second request's turn, run against the store the first left behind
but with the session snapshot from before the first turn. -/
def staleRunB : TurnOutput :=
  tutor_page_send staleRunA.store demoSess "q2" (GenOutcome.ok "a2")

theorem storeSet_same (store : Store) (username : String) (acct : Account) :
    storeSet store username acct username = some acct := by
  simp [storeSet]

theorem storeSet_other (store : Store) (username v : String) (acct : Account)
    (h : v ≠ username) : storeSet store username acct v = store v := by
  simp [storeSet, h]

theorem storeSet_storeSet (store : Store) (username : String)
    (a b : Account) :
    storeSet (storeSet store username a) username b =
      storeSet store username b := by
  funext v
  by_cases h : v = username <;> simp [storeSet, h]

/-- An empty input never enters the send branch: nothing happens. -/
theorem tutor_send_empty_eq (store : Store) (sess : Session)
    (gen : GenOutcome) :
    tutor_page_send store sess "" gen =
      { result := TurnResult.ignored, store := store, sess := sess,
        genCalled := false } := by
  unfold tutor_page_send
  rw [if_pos rfl]

/-- With the session's cached balance at zero (or below), the send is
rejected before any write and before the generation call. -/
theorem tutor_send_noTokens_eq (store : Store) (sess : Session)
    (user_input : String) (gen : GenOutcome)
    (hin : user_input ≠ "") (htok : sess.user_data.tokens ≤ 0) :
    tutor_page_send store sess user_input gen =
      { result := TurnResult.noTokens, store := store, sess := sess,
        genCalled := false } := by
  unfold tutor_page_send
  rw [if_neg hin, if_pos htok]

/-- Characterization of the successful send: one whole-document write
carrying the cached balance minus one and the transcript extended by the
user and assistant turns. -/
theorem tutor_send_ok_eq (store : Store) (sess : Session)
    (user_input tutor_response : String)
    (hin : user_input ≠ "") (hb : 0 < sess.user_data.tokens) :
    tutor_page_send store sess user_input (GenOutcome.ok tutor_response) =
      { result := TurnResult.done
        store := storeSet store sess.username
          { sess.user_data with
              tokens := sess.user_data.tokens - 1
              chat_history := sess.user_data.chat_history ++
                [{ role := "user", content := user_input },
                 { role := "assistant", content := tutor_response }] }
        sess := { sess with user_data :=
          { sess.user_data with
              tokens := sess.user_data.tokens - 1
              chat_history := sess.user_data.chat_history ++
                [{ role := "user", content := user_input },
                 { role := "assistant", content := tutor_response }] } }
        genCalled := true } := by
  unfold tutor_page_send
  rw [if_neg hin, if_neg (not_le.mpr hb)]
  simp only [update_user_data, save_chat_history, storeSet_same,
    storeSet_storeSet, List.append_assoc, List.singleton_append,
    List.cons_append, List.nil_append]

/-- Characterization of a send whose generation call raises
`openai.APIError`: the debit is reverted and the document ends with the
cached balance and the transcript extended by the user turn only. -/
theorem tutor_send_api_eq (store : Store) (sess : Session)
    (user_input e : String)
    (hin : user_input ≠ "") (hb : 0 < sess.user_data.tokens) :
    tutor_page_send store sess user_input (GenOutcome.apiFailure e) =
      { result := TurnResult.apiError e
        store := storeSet store sess.username
          { sess.user_data with
              chat_history := sess.user_data.chat_history ++
                [{ role := "user", content := user_input }] }
        sess := { sess with user_data :=
          { sess.user_data with
              chat_history := sess.user_data.chat_history ++
                [{ role := "user", content := user_input }] } }
        genCalled := true } := by
  unfold tutor_page_send
  rw [if_neg hin, if_neg (not_le.mpr hb)]
  have ht : sess.user_data.tokens - 1 + 1 = sess.user_data.tokens := by omega
  simp only [update_user_data, save_chat_history, storeSet_same,
    storeSet_storeSet, ht]

/-- Characterization of a send whose generation call raises any other
`Exception`: same state effect as the `APIError` handler. -/
theorem tutor_send_other_eq (store : Store) (sess : Session)
    (user_input e : String)
    (hin : user_input ≠ "") (hb : 0 < sess.user_data.tokens) :
    tutor_page_send store sess user_input (GenOutcome.otherFailure e) =
      { result := TurnResult.unexpectedError e
        store := storeSet store sess.username
          { sess.user_data with
              chat_history := sess.user_data.chat_history ++
                [{ role := "user", content := user_input }] }
        sess := { sess with user_data :=
          { sess.user_data with
              chat_history := sess.user_data.chat_history ++
                [{ role := "user", content := user_input }] } }
        genCalled := true } := by
  unfold tutor_page_send
  rw [if_neg hin, if_neg (not_le.mpr hb)]
  have ht : sess.user_data.tokens - 1 + 1 = sess.user_data.tokens := by omega
  simp only [update_user_data, save_chat_history, storeSet_same,
    storeSet_storeSet, ht]

/-- C1: For every account with balance `b > 0`, an orchestrated turn in
which the Generation Service call succeeds ends with balance `b - 1` and
appends exactly two turns to the transcript, the user turn first and the
assistant turn second, with all previously stored turns unchanged. -/
theorem C1_successful_turn (store : Store) (sess : Session)
    (user_input tutor_response : String) (a₀ : Account)
    (hsync : store sess.username = some a₀)
    (hsess : sess.user_data = a₀)
    (hb : 0 < a₀.tokens) (hin : user_input ≠ "") :
    (tutor_page_send store sess user_input
        (GenOutcome.ok tutor_response)).result = TurnResult.done ∧
    (tutor_page_send store sess user_input
        (GenOutcome.ok tutor_response)).store sess.username =
      some { a₀ with
              tokens := a₀.tokens - 1
              chat_history := a₀.chat_history ++
                [{ role := "user", content := user_input },
                 { role := "assistant", content := tutor_response }] } := by
  subst hsess
  rw [tutor_send_ok_eq store sess user_input tutor_response hin hb]
  exact ⟨rfl, storeSet_same store sess.username _⟩

/-- Closed instance of `C1_successful_turn` at the fixture account. -/
theorem C1_successful_turn_witness :
    (tutor_page_send demoStore demoSess "q"
        (GenOutcome.ok "ans")).result = TurnResult.done ∧
    (tutor_page_send demoStore demoSess "q"
        (GenOutcome.ok "ans")).store demoSess.username =
      some { demoAcct with
              tokens := demoAcct.tokens - 1
              chat_history := demoAcct.chat_history ++
                [{ role := "user", content := "q" },
                 { role := "assistant", content := "ans" }] } :=
  C1_successful_turn demoStore demoSess "q" "ans" demoAcct (by decide) rfl
    (by decide) (by decide)

/-- C2: For every account with balance `b > 0`, an orchestrated turn in
which the Generation Service call fails ends with balance exactly `b`
(the debit is compensated by a credit of the same amount), appends exactly
one turn (the user turn only, no assistant turn), and surfaces a
generation error; this holds uniformly for both kinds of failure of the
generation call (`openai.APIError` and every other `Exception`). -/
theorem C2_failed_turn (store : Store) (sess : Session)
    (user_input e : String) (a₀ : Account)
    (hsync : store sess.username = some a₀)
    (hsess : sess.user_data = a₀)
    (hb : 0 < a₀.tokens) (hin : user_input ≠ "") :
    ((tutor_page_send store sess user_input
         (GenOutcome.apiFailure e)).result = TurnResult.apiError e ∧
     (tutor_page_send store sess user_input
         (GenOutcome.apiFailure e)).store sess.username =
       some { a₀ with
               chat_history := a₀.chat_history ++
                 [{ role := "user", content := user_input }] } ∧
     (tutor_page_send store sess user_input
         (GenOutcome.apiFailure e)).genCalled = true) ∧
    ((tutor_page_send store sess user_input
         (GenOutcome.otherFailure e)).result = TurnResult.unexpectedError e ∧
     (tutor_page_send store sess user_input
         (GenOutcome.otherFailure e)).store sess.username =
       some { a₀ with
               chat_history := a₀.chat_history ++
                 [{ role := "user", content := user_input }] } ∧
     (tutor_page_send store sess user_input
         (GenOutcome.otherFailure e)).genCalled = true) := by
  subst hsess
  rw [tutor_send_api_eq store sess user_input e hin hb,
    tutor_send_other_eq store sess user_input e hin hb]
  exact ⟨⟨rfl, storeSet_same store sess.username _, rfl⟩,
    ⟨rfl, storeSet_same store sess.username _, rfl⟩⟩

/-- Closed instance of `C2_failed_turn` at the fixture account. -/
theorem C2_failed_turn_witness :
    ((tutor_page_send demoStore demoSess "q"
         (GenOutcome.apiFailure "boom")).result = TurnResult.apiError "boom" ∧
     (tutor_page_send demoStore demoSess "q"
         (GenOutcome.apiFailure "boom")).store demoSess.username =
       some { demoAcct with
               chat_history := demoAcct.chat_history ++
                 [{ role := "user", content := "q" }] } ∧
     (tutor_page_send demoStore demoSess "q"
         (GenOutcome.apiFailure "boom")).genCalled = true) ∧
    ((tutor_page_send demoStore demoSess "q"
         (GenOutcome.otherFailure "boom")).result =
           TurnResult.unexpectedError "boom" ∧
     (tutor_page_send demoStore demoSess "q"
         (GenOutcome.otherFailure "boom")).store demoSess.username =
       some { demoAcct with
               chat_history := demoAcct.chat_history ++
                 [{ role := "user", content := "q" }] } ∧
     (tutor_page_send demoStore demoSess "q"
         (GenOutcome.otherFailure "boom")).genCalled = true) :=
  C2_failed_turn demoStore demoSess "q" "boom" demoAcct (by decide) rfl
    (by decide) (by decide)

/-- C4: For every account with balance `b = 0`, an orchestrated turn is
rejected with a balance-exhaustion error before any state change: no
debit, no transcript append, no store write, and the Generation Service is
never called. -/
theorem C4_zero_balance_rejected (store : Store) (sess : Session)
    (user_input : String) (gen : GenOutcome)
    (hb : sess.user_data.tokens = 0) (hin : user_input ≠ "") :
    tutor_page_send store sess user_input gen =
      { result := TurnResult.noTokens, store := store, sess := sess,
        genCalled := false } :=
  tutor_send_noTokens_eq store sess user_input gen hin (by omega)

/-- Closed instance of `C4_zero_balance_rejected` at the exhausted fixture
account. -/
theorem C4_zero_balance_rejected_witness :
    tutor_page_send demoStore drainedSess "q" (GenOutcome.ok "ans") =
      { result := TurnResult.noTokens, store := demoStore,
        sess := drainedSess, genCalled := false } :=
  C4_zero_balance_rejected demoStore drainedSess "q" (GenOutcome.ok "ans")
    (by decide) (by decide)

/-- C10: Submitting a turn with empty input text is a complete no-op at
the public interface: no debit, no transcript append, no store write, no
Generation Service call; the request is silently ignored (result
`ignored`), not rejected with an error. -/
theorem C10_empty_input_noop (store : Store) (sess : Session)
    (gen : GenOutcome) :
    tutor_page_send store sess "" gen =
      { result := TurnResult.ignored, store := store, sess := sess,
        genCalled := false } :=
  tutor_send_empty_eq store sess gen

/-- C5 counterexample: two orchestrated turns for the same account whose
sessions both hold the snapshot taken before either ran (two logged-in
tabs).  Both generation calls succeed, so the claim requires the final
balance to reflect both debits (2 - 2 = 0); the code's final balance is 1:
the second request's whole-document write carries its stale cached balance
minus one, losing the first debit. -/
theorem C5_atomic_debit_counterexample :
    staleRunA.result = TurnResult.done ∧
    staleRunB.result = TurnResult.done ∧
    Option.map Account.tokens (staleRunB.store "alice") = some 1 ∧
    Option.map Account.tokens (staleRunB.store "alice") ≠
      some (demoAcct.tokens - 2) := by
  refine ⟨by decide, by decide, by decide, by decide⟩

/-- C5 amended: the debit is a read-modify-write on the session's cached
in-memory copy, written back as a whole-document overwrite: after a
successful turn the stored balance equals the cached balance minus one,
whatever balance the store held — the cached copy, not the store, is the
ground truth for the write. -/
theorem C5_cached_debit (store : Store) (sess : Session)
    (user_input tutor_response : String)
    (hin : user_input ≠ "") (hb : 0 < sess.user_data.tokens) :
    Option.map Account.tokens
      ((tutor_page_send store sess user_input
          (GenOutcome.ok tutor_response)).store sess.username) =
      some (sess.user_data.tokens - 1) := by
  rw [tutor_send_ok_eq store sess user_input tutor_response hin hb]
  simp [storeSet_same]

/-- Closed instance of `C5_cached_debit`: the store holds 50 tokens for
`alice`, the session caches 2; the turn writes 1. -/
theorem C5_cached_debit_witness :
    Option.map Account.tokens
      ((tutor_page_send richStore demoSess "q"
          (GenOutcome.ok "ans")).store demoSess.username) =
      some (demoSess.user_data.tokens - 1) :=
  C5_cached_debit richStore demoSess "q" "ans" (by decide) (by decide)

/-- C6: A registration with a fresh username, non-empty fields and
matching confirmation creates an account with balance exactly 1000,
default preferences `{interactive, moderate, beginner}`, empty subjects,
empty transcript, and a stored hash that verifies the given password; a
subsequent login with the same credentials succeeds and returns that
account. -/
theorem C6_register_then_login (store : Store) (salt : Nat)
    (first_name last_name username email password : String)
    (hfresh : store username = none)
    (hfn : first_name ≠ "") (hln : last_name ≠ "") (hun : username ≠ "")
    (hem : email ≠ "") (hpw : password ≠ "") :
    register_page store salt first_name last_name username email
        password password =
      (RegResult.success,
        storeSet store username
          (new_user_data salt first_name last_name username email password)) ∧
    (new_user_data salt first_name last_name username email
        password).tokens = 1000 ∧
    (new_user_data salt first_name last_name username email
        password).learning_preferences =
      { style := "interactive", pace := "moderate",
        difficulty := "beginner" } ∧
    (new_user_data salt first_name last_name username email
        password).subjects = [] ∧
    (new_user_data salt first_name last_name username email
        password).chat_history = [] ∧
    check_password password
      (new_user_data salt first_name last_name username email
        password).password_hash = true ∧
    login_page
      (register_page store salt first_name last_name username email
        password password).2 username password =
      LoginResult.success
        (new_user_data salt first_name last_name username email password) := by
  have hreg : register_page store salt first_name last_name username email
      password password =
      (RegResult.success,
        storeSet store username
          (new_user_data salt first_name last_name username email
            password)) := by
    unfold register_page
    rw [if_neg (by simp), if_neg (by simp [hun, hpw, hfn, hln, hem]),
      if_neg (by simp [hfresh])]
  refine ⟨hreg, rfl, rfl, rfl, rfl, by simp [check_password, hash_password,
    new_user_data], ?_⟩
  rw [hreg]
  unfold login_page
  simp [storeSet_same, check_password, hash_password, new_user_data]

/-- Closed instance of `C6_register_then_login`: register `alice`/`pw123`
on an empty store and log back in. -/
theorem C6_register_then_login_witness :
    register_page emptyStore 7 "Alice" "Liddell" "alice"
        "alice@example.com" "pw123" "pw123" =
      (RegResult.success,
        storeSet emptyStore "alice"
          (new_user_data 7 "Alice" "Liddell" "alice" "alice@example.com"
            "pw123")) ∧
    (new_user_data 7 "Alice" "Liddell" "alice" "alice@example.com"
        "pw123").tokens = 1000 ∧
    (new_user_data 7 "Alice" "Liddell" "alice" "alice@example.com"
        "pw123").learning_preferences =
      { style := "interactive", pace := "moderate",
        difficulty := "beginner" } ∧
    (new_user_data 7 "Alice" "Liddell" "alice" "alice@example.com"
        "pw123").subjects = [] ∧
    (new_user_data 7 "Alice" "Liddell" "alice" "alice@example.com"
        "pw123").chat_history = [] ∧
    check_password "pw123"
      (new_user_data 7 "Alice" "Liddell" "alice" "alice@example.com"
        "pw123").password_hash = true ∧
    login_page
      (register_page emptyStore 7 "Alice" "Liddell" "alice"
        "alice@example.com" "pw123" "pw123").2 "alice" "pw123" =
      LoginResult.success
        (new_user_data 7 "Alice" "Liddell" "alice" "alice@example.com"
          "pw123") :=
  C6_register_then_login emptyStore 7 "Alice" "Liddell" "alice"
    "alice@example.com" "pw123" rfl (by decide) (by decide) (by decide)
    (by decide) (by decide)

/-- C7 counterexample: with `alice` already registered, a second
registration whose two password fields differ fails with the
password-mismatch error, not the duplicate-username error — the
confirmation and required-fields checks run before the duplicate check
(the record is still left unchanged). -/
theorem C7_duplicate_counterexample :
    (register_page demoStore 1 "Mallory" "M" "alice" "m@example.com"
        "pw1" "pw2").1 = RegResult.passwordMismatch ∧
    RegResult.passwordMismatch ≠ RegResult.duplicateUsername ∧
    (register_page demoStore 1 "Mallory" "M" "alice" "m@example.com"
        "pw1" "pw2").2 "alice" = some demoAcct := by
  refine ⟨by decide, by decide, by decide⟩

/-- C7 amended: a second `register` call for an existing username never
succeeds and leaves the store unchanged; it reports the duplicate-username
error exactly when the payload passes the confirmation-match and
non-empty-fields checks (which the handler runs first), and otherwise
fails with the corresponding validation error: password mismatch when the
two password fields differ, missing fields when they match but some
required field is empty. -/
theorem C7_duplicate_register (store : Store) (salt : Nat)
    (first_name last_name username email password confirm_password : String)
    (a : Account) (hdup : store username = some a) :
    (register_page store salt first_name last_name username email
        password confirm_password).2 = store ∧
    (register_page store salt first_name last_name username email
        password confirm_password).1 ≠ RegResult.success ∧
    (password ≠ confirm_password →
      (register_page store salt first_name last_name username email
        password confirm_password).1 = RegResult.passwordMismatch) ∧
    (password = confirm_password →
      (username = "" ∨ password = "" ∨ first_name = "" ∨ last_name = "" ∨
        email = "") →
      (register_page store salt first_name last_name username email
        password confirm_password).1 = RegResult.fieldsRequired) ∧
    ((register_page store salt first_name last_name username email
        password confirm_password).1 = RegResult.duplicateUsername ↔
      password = confirm_password ∧ username ≠ "" ∧ password ≠ "" ∧
        first_name ≠ "" ∧ last_name ≠ "" ∧ email ≠ "") := by
  unfold register_page
  have hsome : (store username).isSome = true := by rw [hdup]; rfl
  by_cases h1 : password ≠ confirm_password
  · rw [if_pos h1]
    refine ⟨rfl, by simp, fun _ => rfl, fun hc _ => absurd hc h1, ?_, ?_⟩
    · intro h
      simp at h
    · rintro ⟨hc, -⟩
      exact absurd hc h1
  · rw [if_neg h1]
    push_neg at h1
    by_cases h2 : username = "" ∨ password = "" ∨ first_name = "" ∨
        last_name = "" ∨ email = ""
    · rw [if_pos h2]
      refine ⟨rfl, by simp, fun hne => absurd h1 hne, fun _ _ => rfl,
        ?_, ?_⟩
      · intro h
        simp at h
      · rintro ⟨-, hun, hpw, hfn, hln, hem⟩
        rcases h2 with h | h | h | h | h
        · exact absurd h hun
        · exact absurd h hpw
        · exact absurd h hfn
        · exact absurd h hln
        · exact absurd h hem
    · rw [if_neg h2, if_pos hsome]
      push_neg at h2
      exact ⟨rfl, by simp, fun hne => absurd h1 hne,
        fun _ hor => absurd hor (by push_neg; exact h2),
        fun _ => ⟨h1, h2⟩, fun _ => rfl⟩

/-- Closed instance of `C7_duplicate_register` exercising each branch for
the already-registered `alice`: a valid payload reports the
duplicate-username error (store unchanged), a mismatched-confirmation
payload reports the password-mismatch error, and a matching payload with
an empty email reports the missing-fields error. -/
theorem C7_duplicate_register_witness :
    (register_page demoStore 1 "Mallory" "M" "alice" "m@example.com"
        "pw9" "pw9").2 = demoStore ∧
    (register_page demoStore 1 "Mallory" "M" "alice" "m@example.com"
        "pw9" "pw9").1 ≠ RegResult.success ∧
    (register_page demoStore 1 "Mallory" "M" "alice" "m@example.com"
        "pw9" "pw9").1 = RegResult.duplicateUsername ∧
    (register_page demoStore 1 "Mallory" "M" "alice" "m@example.com"
        "pw1" "pw2").1 = RegResult.passwordMismatch ∧
    (register_page demoStore 1 "Mallory" "M" "alice" ""
        "pw9" "pw9").1 = RegResult.fieldsRequired := by
  have hvalid := C7_duplicate_register demoStore 1 "Mallory" "M" "alice"
    "m@example.com" "pw9" "pw9" demoAcct (by decide)
  have hmis := C7_duplicate_register demoStore 1 "Mallory" "M" "alice"
    "m@example.com" "pw1" "pw2" demoAcct (by decide)
  have hempty := C7_duplicate_register demoStore 1 "Mallory" "M" "alice"
    "" "pw9" "pw9" demoAcct (by decide)
  exact ⟨hvalid.1, hvalid.2.1,
    hvalid.2.2.2.2.mpr ⟨rfl, by decide, by decide, by decide, by decide,
      by decide⟩,
    hmis.2.2.1 (by decide),
    hempty.2.2.2.1 rfl (by decide)⟩

/-- C8 counterexample: the submit handlers perform no catalog or
enumeration validation.  A preference update with values outside every
enumerated option set succeeds and stores them verbatim, and a subjects
update with a subject outside the 10-subject catalog reports success and
stores it — neither fails with a validation error. -/
theorem C8_validation_counterexample :
    "telepathic" ∉ learning_style_options ∧
    "warp" ∉ learning_pace_options ∧
    "psychic" ∉ difficulty_level_options ∧
    Option.map Account.learning_preferences
      ((update_preferences demoStore demoSess "telepathic" "warp"
          "psychic").1 "alice") =
      some { style := "telepathic", pace := "warp",
             difficulty := "psychic" } ∧
    "Alchemy" ∉ available_subjects ∧
    (update_subjects demoStore demoSess ["Alchemy"]).1 =
      SubjectsResult.updated ∧
    Option.map Account.subjects
      ((update_subjects demoStore demoSess ["Alchemy"]).2.1 "alice") =
      some ["Alchemy"] := by
  refine ⟨by decide, by decide, by decide, by decide, by decide, by decide,
    by decide⟩

/-- C8 amended: only the subject-count bound is validated at the submit
handlers.  An update with more than 5 subjects fails and changes nothing;
an update with at most 5 subjects succeeds and stores exactly those
values, regardless of catalog membership; a preference update always
succeeds and stores exactly the given style/pace/difficulty values,
regardless of the enumerated sets (the UI widgets, not the handler,
constrain the offered values). -/
theorem C8_update_validation (store : Store) (sess : Session)
    (selected : List String) (s p d : String) :
    (selected.length > 5 →
      update_subjects store sess selected =
        (SubjectsResult.tooMany, store, sess)) ∧
    (selected.length ≤ 5 →
      update_subjects store sess selected =
        (SubjectsResult.updated,
          storeSet store sess.username
            { sess.user_data with subjects := selected },
          { sess with user_data :=
              { sess.user_data with subjects := selected } })) ∧
    update_preferences store sess s p d =
      (storeSet store sess.username
        { sess.user_data with
            learning_preferences :=
              { style := s, pace := p, difficulty := d } },
       { sess with user_data :=
          { sess.user_data with
              learning_preferences :=
                { style := s, pace := p, difficulty := d } } }) := by
  refine ⟨fun h => ?_, fun h => ?_, rfl⟩
  · unfold update_subjects
    rw [if_pos h]
  · unfold update_subjects
    rw [if_neg (by omega)]
    rfl

/-- Closed instance of `C8_update_validation`: a 6-subject update is
rejected unchanged; a 5-subject update succeeds and stores the values; a
preference update stores exactly the submitted values. -/
theorem C8_update_validation_witness :
    update_subjects demoStore demoSess
        ["Mathematics", "Physics", "Chemistry", "Biology",
         "Computer Science", "History"] =
      (SubjectsResult.tooMany, demoStore, demoSess) ∧
    update_subjects demoStore demoSess
        ["Mathematics", "Physics", "Chemistry", "Biology",
         "Computer Science"] =
      (SubjectsResult.updated,
        storeSet demoStore demoSess.username
          { demoSess.user_data with subjects :=
              ["Mathematics", "Physics", "Chemistry", "Biology",
               "Computer Science"] },
        { demoSess with user_data :=
            { demoSess.user_data with subjects :=
                ["Mathematics", "Physics", "Chemistry", "Biology",
                 "Computer Science"] } }) ∧
    update_preferences demoStore demoSess "Visual" "Fast" "Advanced" =
      (storeSet demoStore demoSess.username
        { demoSess.user_data with
            learning_preferences :=
              { style := "Visual", pace := "Fast",
                difficulty := "Advanced" } },
       { demoSess with user_data :=
          { demoSess.user_data with
              learning_preferences :=
                { style := "Visual", pace := "Fast",
                  difficulty := "Advanced" } } }) := by
  have h6 := C8_update_validation demoStore demoSess
    ["Mathematics", "Physics", "Chemistry", "Biology", "Computer Science",
     "History"] "Visual" "Fast" "Advanced"
  have h5 := C8_update_validation demoStore demoSess
    ["Mathematics", "Physics", "Chemistry", "Biology", "Computer Science"]
    "Visual" "Fast" "Advanced"
  exact ⟨h6.1 (by decide), h5.2.1 (by decide), h5.2.2⟩

/-- C9: A successful preference update changes only the preferences field
of the stored record and a successful subjects update changes only the
subjects field — username, password hash, profile fields, balance and
transcript are untouched (expressed by the record-update equations below),
no other user's document changes — and applying the same preference
update twice yields the same stored record and session as applying it
once. -/
theorem C9_frame_and_idempotent (store : Store) (sess : Session)
    (s p d : String) (selected : List String) (a₀ : Account)
    (hsync : store sess.username = some a₀)
    (hsess : sess.user_data = a₀)
    (hlen : selected.length ≤ 5) :
    (update_preferences store sess s p d).1 sess.username =
      some { a₀ with
              learning_preferences :=
                { style := s, pace := p, difficulty := d } } ∧
    (∀ u, u ≠ sess.username →
      (update_preferences store sess s p d).1 u = store u) ∧
    (update_subjects store sess selected).2.1 sess.username =
      some { a₀ with subjects := selected } ∧
    (∀ u, u ≠ sess.username →
      (update_subjects store sess selected).2.1 u = store u) ∧
    update_preferences (update_preferences store sess s p d).1
        (update_preferences store sess s p d).2 s p d =
      update_preferences store sess s p d := by
  subst hsess
  have hsubj : update_subjects store sess selected =
      (SubjectsResult.updated,
        storeSet store sess.username
          { sess.user_data with subjects := selected },
        { sess with user_data :=
            { sess.user_data with subjects := selected } }) := by
    unfold update_subjects
    rw [if_neg (by omega)]
    rfl
  refine ⟨storeSet_same store sess.username _,
    fun u hu => storeSet_other store sess.username u _ hu,
    ?_, ?_, ?_⟩
  · rw [hsubj]
    exact storeSet_same store sess.username _
  · intro u hu
    rw [hsubj]
    exact storeSet_other store sess.username u _ hu
  · unfold update_preferences update_user_data
    simp only [storeSet_storeSet]

/-- Closed instance of `C9_frame_and_idempotent` at the fixture account
(the frame read off at the other username `bob`). -/
theorem C9_frame_and_idempotent_witness :
    (update_preferences demoStore demoSess "Visual" "Fast" "Advanced").1
        demoSess.username =
      some { demoAcct with
              learning_preferences :=
                { style := "Visual", pace := "Fast",
                  difficulty := "Advanced" } } ∧
    (update_preferences demoStore demoSess "Visual" "Fast" "Advanced").1
        "bob" = demoStore "bob" ∧
    (update_subjects demoStore demoSess ["Art"]).2.1 demoSess.username =
      some { demoAcct with subjects := ["Art"] } ∧
    (update_subjects demoStore demoSess ["Art"]).2.1 "bob" =
      demoStore "bob" ∧
    update_preferences
        (update_preferences demoStore demoSess "Visual" "Fast"
          "Advanced").1
        (update_preferences demoStore demoSess "Visual" "Fast"
          "Advanced").2 "Visual" "Fast" "Advanced" =
      update_preferences demoStore demoSess "Visual" "Fast" "Advanced" := by
  have h := C9_frame_and_idempotent demoStore demoSess "Visual" "Fast"
    "Advanced" ["Art"] demoAcct (by decide) rfl (by decide)
  exact ⟨h.1, h.2.1 "bob" (by decide), h.2.2.1, h.2.2.2.1 "bob" (by decide),
    h.2.2.2.2⟩

theorem balOk_storeSet (store : Store) (username u : String)
    (acct : Account) (hstore : balOk (store u) = true)
    (hacct : 0 ≤ acct.tokens) :
    balOk (storeSet store username acct u) = true := by
  by_cases hu : u = username
  · subst hu
    rw [storeSet_same]
    simpa [balOk]
  · rwa [storeSet_other store username u acct hu]

theorem update_subjects_gt_eq (store : Store) (sess : Session)
    (selected : List String) (h : selected.length > 5) :
    update_subjects store sess selected =
      (SubjectsResult.tooMany, store, sess) := by
  unfold update_subjects
  rw [if_pos h]

theorem update_subjects_le_eq (store : Store) (sess : Session)
    (selected : List String) (h : selected.length ≤ 5) :
    update_subjects store sess selected =
      (SubjectsResult.updated,
        storeSet store sess.username
          { sess.user_data with subjects := selected },
        { sess with user_data :=
            { sess.user_data with subjects := selected } }) := by
  unfold update_subjects
  rw [if_neg (by omega)]
  rfl

/-- C3: Every operation preserves the invariant `balance >= 0`:
registration preserves non-negativity of every stored balance (a fresh
account gets 1000); authentication (`login_page`) performs no store write
by construction (it returns only a `LoginResult`); preference and subject
updates leave the stored balance exactly unchanged; and an orchestrated
turn — successful, failed, or rejected — leaves every stored balance
non-negative (only its debit/credit pair touches the balance). -/
theorem C3_balance_invariant :
    (∀ (store : Store) (salt : Nat)
        (first_name last_name username email password confirm_password
          u : String),
      balOk (store u) = true →
      balOk ((register_page store salt first_name last_name username email
        password confirm_password).2 u) = true) ∧
    (∀ (store : Store) (sess : Session) (s p d u : String),
      store sess.username = some sess.user_data →
      Option.map Account.tokens ((update_preferences store sess s p d).1 u) =
        Option.map Account.tokens (store u)) ∧
    (∀ (store : Store) (sess : Session) (selected : List String)
        (u : String),
      store sess.username = some sess.user_data →
      Option.map Account.tokens
          ((update_subjects store sess selected).2.1 u) =
        Option.map Account.tokens (store u)) ∧
    (∀ (store : Store) (sess : Session) (user_input : String)
        (gen : GenOutcome) (u : String),
      balOk (store u) = true →
      balOk ((tutor_page_send store sess user_input gen).store u) = true) := by
  refine ⟨?_, ?_, ?_, ?_⟩
  · intro store salt fn ln un em pw cpw u h
    unfold register_page
    split_ifs with h1 h2 h3
    · exact h
    · exact h
    · exact h
    · refine balOk_storeSet store un u _ h ?_
      show (0:Int) ≤ (1000:Int)
      decide
  · intro store sess s p d u hsync
    simp only [update_preferences, update_user_data]
    by_cases hu : u = sess.username
    · subst hu
      rw [storeSet_same, hsync]
      rfl
    · rw [storeSet_other store sess.username u _ hu]
  · intro store sess selected u hsync
    by_cases hlen : selected.length > 5
    · rw [update_subjects_gt_eq store sess selected hlen]
    · rw [update_subjects_le_eq store sess selected (by omega)]
      by_cases hu : u = sess.username
      · subst hu
        show Option.map Account.tokens
          (storeSet store sess.username _ sess.username) = _
        rw [storeSet_same, hsync]
        rfl
      · show Option.map Account.tokens
          (storeSet store sess.username _ u) = _
        rw [storeSet_other store sess.username u _ hu]
  · intro store sess user_input gen u h
    by_cases hin : user_input = ""
    · subst hin
      rw [tutor_send_empty_eq]
      exact h
    · by_cases htok : sess.user_data.tokens ≤ 0
      · rw [tutor_send_noTokens_eq store sess user_input gen hin htok]
        exact h
      · have hb : 0 < sess.user_data.tokens := by omega
        cases gen with
        | ok c =>
          rw [tutor_send_ok_eq store sess user_input c hin hb]
          exact balOk_storeSet store sess.username u _ h
            (by omega : (0:Int) ≤ sess.user_data.tokens - 1)
        | apiFailure e =>
          rw [tutor_send_api_eq store sess user_input e hin hb]
          exact balOk_storeSet store sess.username u _ h
            (by omega : (0:Int) ≤ sess.user_data.tokens)
        | otherFailure e =>
          rw [tutor_send_other_eq store sess user_input e hin hb]
          exact balOk_storeSet store sess.username u _ h
            (by omega : (0:Int) ≤ sess.user_data.tokens)

/-- Closed instance of `C3_balance_invariant`, each conjunct instantiated
at the fixtures. -/
theorem C3_balance_invariant_witness :
    balOk ((register_page emptyStore 7 "Alice" "Liddell" "alice"
      "alice@example.com" "pw123" "pw123").2 "alice") = true ∧
    Option.map Account.tokens
      ((update_preferences demoStore demoSess "Visual" "Fast"
        "Advanced").1 "alice") =
      Option.map Account.tokens (demoStore "alice") ∧
    Option.map Account.tokens
      ((update_subjects demoStore demoSess ["Art"]).2.1 "alice") =
      Option.map Account.tokens (demoStore "alice") ∧
    balOk ((tutor_page_send demoStore demoSess "q"
      (GenOutcome.ok "ans")).store "alice") = true := by
  have h := C3_balance_invariant
  exact ⟨h.1 emptyStore 7 "Alice" "Liddell" "alice" "alice@example.com"
      "pw123" "pw123" "alice" (by decide),
    h.2.1 demoStore demoSess "Visual" "Fast" "Advanced" "alice" (by decide),
    h.2.2.1 demoStore demoSess ["Art"] "alice" (by decide),
    h.2.2.2 demoStore demoSess "q" (GenOutcome.ok "ans") "alice"
      (by decide)⟩
